import Mathlib

/-!
Verification of the Terratomic simulation core (pathfinding, kinematic
movers, target selection and execution lifecycles) against its
natural-language specification.  The definitions below are shallow
embeddings of the TypeScript sources under `src/core`; external
collaborators (the map, the unit registry, the pseudo-random generator,
the config layer) are modelled as explicit oracle inputs.
-/

/-- Tiles are opaque references into the map; the core only ever reads
their x/y decoding, so we model a tile directly by its coordinates. -/
abbrev Tile := Int × Int

/-- Manhattan distance between two tiles (`game.manhattanDist`). -/
def manhattanDist (a b : Tile) : Int :=
  |a.1 - b.1| + |a.2 - b.2|

/-- Squared Euclidean distance between two tiles
(`game.euclideanDistSquared`). -/
def euclideanDistSquared (a b : Tile) : Int :=
  (a.1 - b.1) ^ 2 + (a.2 - b.2) ^ 2

/-- Errors that the embedded code can raise (TypeScript `throw` sites and
runtime type errors). -/
inductive ExecErr
  | missingTile
  | unexpected
  | notInitialized
  | fuel
  | typeError
deriving DecidableEq

/-! ## PathFinder (src/core/pathfinding/PathFinding.ts, class PathFinder) -/

/-- Result of `PathFinder.nextTile` (the TS `AStarResult` with its
`PathFindResultType` tag and optional node). -/
inductive PFRes
  | completed (node : Tile)
  | nextTileR (node : Tile)
  | pending
  | pathNotFound
deriving DecidableEq

/-- The tag returned by `aStar.compute()` (the raw `PathFindResultType`
enum; `NextTile` is in the enum but never returned by `compute`, and the
code throws on it). -/
inductive ComputeTag
  | completedT
  | nextTileT
  | pendingT
  | pathNotFoundT
deriving DecidableEq

/-- Oracle for the underlying A* back-end: the outcome of the single
bounded `compute()` step a `nextTile` call may perform, and the path
`reconstructPath()` yields when that step completes. -/
structure PFEnv where
  computeRes : ComputeTag
  reconstructed : List Tile

/-- The mutable fields of a `PathFinder` instance: last-seen current and
destination tiles, the cached route, and the `computeFinished` flag.
(The `aStar` object itself carries no state we observe beyond the
`PFEnv` oracle.) -/
structure PFState where
  curr : Option Tile
  dst : Option Tile
  path : Option (List Tile)
  computeFinished : Bool
deriving DecidableEq

/-- `PathFinder.shouldRecompute`: recompute when any of path/curr/dst is
null, or when the destination drifted (Manhattan) from the cached one by
more than a tolerance of 10 / 5 / 0 tiles for current-to-destination
distance > 50 / > 25 / otherwise. -/
def shouldRecompute (s : PFState) (curr dst : Tile) : Bool :=
  match s.path, s.curr, s.dst with
  | some _, some _, some cachedDst =>
    let dist := manhattanDist curr dst
    let tolerance : Int := if dist > 50 then 10 else if dist > 25 then 5 else 0
    decide (manhattanDist cachedDst dst > tolerance)
  | _, _, _ => true

/-- `PathFinder.nextTile`, with fuel bounding the (in the source,
depth-≤-3) self-recursion.  The recursive self-calls in the source pass
no `dist`, so it defaults back to 1 there. -/
def nextTileAux (env : PFEnv) :
    Nat → PFState → Option Tile → Option Tile → Int →
    Except ExecErr (PFRes × PFState)
  | 0, _, _, _, _ => .error .fuel
  | _ + 1, s, none, _, _ => .ok (.pathNotFound, s)
  | _ + 1, s, some _, none, _ => .ok (.pathNotFound, s)
  | n + 1, s, some curr, some dst, dist =>
    if manhattanDist curr dst < dist then .ok (.completed curr, s)
    else if s.computeFinished then
      if shouldRecompute s curr dst then
        nextTileAux env n
          { s with curr := some curr, dst := some dst,
                   path := none, computeFinished := false }
          (some curr) (some dst) 1
      else
        match s.path with
        | some (t :: rest) => .ok (.nextTileR t, { s with path := some rest })
        | _ => .error .missingTile
    else
      match env.computeRes with
      | .completedT =>
        nextTileAux env n
          { s with computeFinished := true,
                   path := some env.reconstructed.tail }
          (some curr) (some dst) 1
      | .pendingT => .ok (.pending, s)
      | .pathNotFoundT => .ok (.pathNotFound, s)
      | .nextTileT => .error .unexpected

/-- `PathFinder.nextTile` entry point; fuel 5 strictly exceeds the
maximal self-recursion depth (3) of the source. -/
def pfNextTile (env : PFEnv) (s : PFState) (curr dst : Option Tile)
    (dist : Int) : Except ExecErr (PFRes × PFState) :=
  nextTileAux env 5 s curr dst dist

/-! ## StraightPathFinder (src/core/pathfinding/PathFinding.ts, lines 114-158)

The mover computes with JavaScript floating-point numbers; we idealise
them as real numbers.  `Math.round` rounds half-up (toward +infinity),
i.e. `round x = floor (x + 1/2)`. -/

/-- JavaScript `Math.round`: round half toward positive infinity. -/
noncomputable def jsRound (x : ℝ) : ℤ := ⌊x + 1 / 2⌋

/-- Euclidean length of the vector `(dx, dy)` (`Math.hypot`). -/
noncomputable def euclid (dx dy : ℝ) : ℝ := Real.sqrt (dx ^ 2 + dy ^ 2)

/-- `StraightPathFinder.nextTile`: `none` models the TS return value
`true` (arrived), `some t` models returning the tile `t`. -/
noncomputable def straightNextTile (curr dst : Tile) (speed : ℝ) :
    Option Tile :=
  let dx : ℝ := (dst.1 : ℝ) - (curr.1 : ℝ)
  let dy : ℝ := (dst.2 : ℝ) - (curr.2 : ℝ)
  let dist := euclid dx dy
  if dist ≤ speed then none
  else
    let dirX := dx / dist
    let dirY := dy / dist
    let nextX := jsRound ((curr.1 : ℝ) + dirX * speed)
    let nextY := jsRound ((curr.2 : ℝ) + dirY * speed)
    let remainingDist := euclid ((dst.1 : ℝ) - (nextX : ℝ)) ((dst.2 : ℝ) - (nextY : ℝ))
    if remainingDist ≤ speed then none
    else some (nextX, nextY)

/-! ## AirPathFinder (src/core/pathfinding/PathFinding.ts, lines 70-109)

`PseudoRandom.chance(odds)` is not part of the sources under
verification; a call is modelled by an oracle `rnd : Nat → Bool` giving
the draw outcome for the odds it is invoked with. -/

/-- The odds the air mover passes to `random.chance`:
`Math.floor(1 + |dstY - y| / (|dstX - x| + 1))` on integers. -/
def airOdds (x y dstX dstY : Int) : Nat :=
  1 + (dstY - y).natAbs / ((dstX - x).natAbs + 1)

/-- Modelled from the spec: the odds formula the specification states for
the air mover, `floor(1 + |dminor| / (|dmajor| + 1))` where `dmajor` is
the larger and `dminor` the smaller of the two absolute coordinate
deltas. -/
def specOdds (x y dstX dstY : Int) : Nat :=
  1 + min (dstX - x).natAbs (dstY - y).natAbs /
      (max (dstX - x).natAbs (dstY - y).natAbs + 1)

/-- `AirPathFinder.nextTile`: `none` models the TS return value `true`
(arrived), `some t` a step to tile `t`. -/
def airNextTile (rnd : Nat → Bool) (tile dst : Tile) : Option Tile :=
  let x := tile.1
  let y := tile.2
  let dstX := dst.1
  let dstY := dst.2
  if x = dstX ∧ y = dstY then none
  else
    let next : Tile :=
      if rnd (airOdds x y dstX dstY) ∧ x ≠ dstX then
        (if x < dstX then x + 1 else x - 1, y)
      else
        (x, if y < dstY then y + 1 else if y > dstY then y - 1 else y)
    if next.1 = x ∧ next.2 = y then none
    else some next

/-! ## Target selection (src/core/game/GameMapUtils.ts `findClosest` and
src/core/execution/FighterJetExecution.ts `findTargetUnit`) -/

/-- The unit types the targeting code distinguishes. -/
inductive UnitTy
  | fighterJet
  | bomber
  | tradeShip
  | other
deriving DecidableEq

/-- The slice of a game unit the targeting code reads: identity, type,
position, owner, targetability. -/
structure CUnit where
  uid : Nat
  uty : UnitTy
  pos : Tile
  ownerId : Nat
  targetable : Bool
deriving DecidableEq

/-- The comparator both `findClosest` and `findTargetUnit` sort with:
FighterJets first, then ascending squared Euclidean distance. -/
def unitCmp (start : Tile) (a b : CUnit) : Int :=
  if a.uty = UnitTy.fighterJet ∧ b.uty ≠ UnitTy.fighterJet then -1
  else if a.uty ≠ UnitTy.fighterJet ∧ b.uty = UnitTy.fighterJet then 1
  else euclideanDistSquared start a.pos - euclideanDistSquared start b.pos

/-- `findClosest`: filter the nearby units (the range query's result is
the input list) by the predicate, then sort by `unitCmp`.  JavaScript
`Array.prototype.sort` is stable; we model it by a stable sort. -/
def findClosest (start : Tile) (nearby : List CUnit) (pred : CUnit → Bool) :
    List CUnit :=
  (nearby.filter pred).insertionSort (fun a b => unitCmp start a b ≤ 0)

/-- The filter predicate of `FighterJetExecution.findTargetUnit`: drop
own units, the jet itself, friendly owners, and untargetable units.
`friendly` is the owner-registry oracle for `owner().isFriendly`. -/
def fjTargetPred (selfUid selfOwner : Nat) (friendly : Nat → Bool)
    (u : CUnit) : Bool :=
  if u.ownerId = selfOwner ∨ u.uid = selfUid ∨ friendly u.ownerId ∨
      ¬ u.targetable = true then false
  else true

/-- `FighterJetExecution.findTargetUnit`: `findClosest` over Bombers and
FighterJets in range, then a second sort with the same comparator, then
the first element. -/
def findTargetUnit (selfUid selfOwner : Nat) (friendly : Nat → Bool)
    (start : Tile) (nearby : List CUnit) : Option CUnit :=
  let closest := findClosest start nearby (fjTargetPred selfUid selfOwner friendly)
  if closest.length = 0 then none
  else (closest.insertionSort (fun a b => unitCmp start a b ≤ 0)).head?

/-! ## Execution lifecycles

Each concrete `Execution` is embedded as a state record plus a `tick`
step function.  Reads of external collaborators (unit registry, config,
random, other players' actions between ticks) are supplied by a per-tick
environment record; external actors can destroy or capture a unit but
never revive one (spec section 3: loss of liveness is authoritative).
Calls into the pathfinders are abstracted by an environment oracle
(their own embeddings are `straightNextTile` / `airNextTile` above). -/

/-- The slice of a generic game unit the executions read and write. -/
structure UnitSt where
  uActive : Bool
  health : Int
  pos : Tile
  ownerId : Nat
deriving DecidableEq

/-- Run a sequence of ticks; a tick whose body throws leaves the state
as it was (the exception propagates to the scheduler). -/
def runTicks {E S : Type} (tick : E → S → Except ExecErr S) :
    List E → S → S
  | [], s => s
  | e :: es, s =>
    runTicks tick es (match tick e s with | .ok s' => s' | .error _ => s)

/-! ### BomberExecution (src/core/pathfinding/PathFinding.ts, lines 310-448) -/

structure BomberState where
  active : Bool
  bomber : Option UnitSt
  bombsLeft : Int
  returning : Bool
  dropTicker : Int
deriving DecidableEq

structure BomberEnv where
  shotDown : Bool
  canBuild : Option Tile
  dropCadence : Int
  distSqToTarget : Int
  pathStep : Option Tile
deriving DecidableEq

/-- `BomberExecution.dropBomb` (the nuke explosion itself is an external
world effect). -/
def dropBomb (s : BomberState) : BomberState :=
  let left := s.bombsLeft - 1
  { s with bombsLeft := left,
           returning := if left = 0 then true else s.returning }

/-- Steps 4-7 of `BomberExecution.tick`: destination choice and the
straight-line step are folded into the `pathStep` oracle. -/
def bomberMove (env : BomberEnv) (s : BomberState) (u : UnitSt) :
    Except ExecErr BomberState :=
  match env.pathStep with
  | none =>
    if ¬ s.returning ∧ s.bombsLeft > 0 then .ok (dropBomb s)
    else if s.returning then
      .ok { s with bomber := some { u with uActive := false }, active := false }
    else .ok s
  | some t => .ok { s with bomber := some { u with pos := t } }

/-- Steps 2-7 of `BomberExecution.tick` (after the spawn step). -/
def bomberRest (env : BomberEnv) (s : BomberState) (u : UnitSt) :
    Except ExecErr BomberState :=
  if ¬ u.uActive then .ok { s with active := false }
  else if ¬ s.returning ∧ s.bombsLeft > 0 then
    let s1 := { s with dropTicker := s.dropTicker + 1 }
    if s1.dropTicker ≥ env.dropCadence ∧ env.distSqToTarget ≤ 1 then
      .ok { dropBomb s1 with dropTicker := 0 }
    else bomberMove env s1 u
  else bomberMove env s u

/-- `BomberExecution.tick`.  The `shotDown` flag applies the external
world's destruction of the unit since the previous tick. -/
def bomberTick (env : BomberEnv) (s0 : BomberState) :
    Except ExecErr BomberState :=
  let s := if env.shotDown then
      { s0 with bomber := s0.bomber.map (fun u => { u with uActive := false }) }
    else s0
  match s.bomber with
  | none =>
    match env.canBuild with
    | none => .ok { s with active := false }
    | some spawnT =>
      let u : UnitSt := { uActive := true, health := 1, pos := spawnT, ownerId := 0 }
      bomberRest env { s with bomber := some u } u
  | some u => bomberRest env s u

/-- `BomberExecution.isActive`. -/
def bomberIsActive (s : BomberState) : Bool := s.active

/-- `BomberExecution.init`: payload comes from the config. -/
def bomberInit (payload : Int) (s : BomberState) : BomberState :=
  { s with bombsLeft := payload }

/-! ### CargoPlaneExecution (src/core/execution/CargoPlaneExecution.ts) -/

structure CargoState where
  active : Bool
  cargoPlane : Option UnitSt
  tilesTraveled : Int
  isCaptured : Bool
  origOwnerId : Nat
deriving DecidableEq

structure CargoEnv where
  shotDown : Bool
  captureBy : Option Nat
  canBuild : Option Tile
  dstOwnerId : Nat
  srcOwnerId : Nat
  dstActive : Bool
  canTrade : Bool
  friendlyAirfields : List UnitSt
  pathStep : Option Tile
deriving DecidableEq

/-- The closest-friendly-airfield loop of the capture branch
(lines 84-96): strict `<` keeps the earliest unit on distance ties,
exactly as the source loop does. -/
def closestAirfield (pos : Tile) (fields : List UnitSt) : Option UnitSt :=
  (fields.foldl
    (fun acc f =>
      let d := euclideanDistSquared pos f.pos
      match acc with
      | none => some (f, d)
      | some (g, dg) => if d < dg then some (f, d) else some (g, dg))
    none).map (fun p => p.1)

/-- `CargoPlaneExecution.complete` (gold transfer and messages are
external world effects). -/
def cargoComplete (s : CargoState) (u : UnitSt) : CargoState :=
  { s with active := false, cargoPlane := some { u with uActive := false } }

/-- Steps 5-6 of `CargoPlaneExecution.tick`: movement toward the
destination airfield via the straight-line `pathStep` oracle. -/
def cargoMove (env : CargoEnv) (s : CargoState) (u : UnitSt) :
    Except ExecErr CargoState :=
  match env.pathStep with
  | none => .ok (cargoComplete s u)
  | some t =>
    .ok { s with cargoPlane := some { u with pos := t },
                 tilesTraveled := s.tilesTraveled + 1 }

/-- Steps 3-4 of `CargoPlaneExecution.tick` (trade validation, skipped
once captured), then movement. -/
def cargoValidate (env : CargoEnv) (s : CargoState) (u : UnitSt) :
    Except ExecErr CargoState :=
  if ¬ s.isCaptured then
    if env.dstOwnerId = env.srcOwnerId ∧ u.ownerId = env.srcOwnerId then
      .ok { s with cargoPlane := some { u with uActive := false }, active := false }
    else if ¬ env.dstActive ∨ ¬ env.canTrade then
      .ok { s with cargoPlane := some { u with uActive := false }, active := false }
    else cargoMove env s u
  else cargoMove env s u

/-- The capture-handling branch (lines 76-118) and everything after it. -/
def cargoAfterSpawn (env : CargoEnv) (s : CargoState) (u : UnitSt) :
    Except ExecErr CargoState :=
  if ¬ u.uActive then .ok { s with active := false }
  else if u.ownerId ≠ s.origOwnerId then
    let s1 := { s with isCaptured := true, origOwnerId := u.ownerId,
                       tilesTraveled := 0 }
    match closestAirfield u.pos env.friendlyAirfields with
    | some _ => cargoValidate env s1 u
    | none =>
      .ok { s1 with cargoPlane := some { u with uActive := false }, active := false }
  else cargoValidate env s u

/-- `CargoPlaneExecution.tick`.  `shotDown` and `captureBy` apply the
external destruction or ownership change of the plane since the
previous tick. -/
def cargoTick (env : CargoEnv) (s0 : CargoState) :
    Except ExecErr CargoState :=
  let s := { s0 with cargoPlane := s0.cargoPlane.map (fun (u : UnitSt) =>
      let u1 : UnitSt := if env.shotDown then { u with uActive := false } else u
      match env.captureBy with
      | some p => { u1 with ownerId := p }
      | none => u1) }
  match s.cargoPlane with
  | none =>
    match env.canBuild with
    | none => .ok { s with active := false }
    | some spawnT =>
      let u : UnitSt :=
        { uActive := true, health := 1, pos := spawnT, ownerId := s.origOwnerId }
      cargoAfterSpawn env { s with cargoPlane := some u } u
  | some u => cargoAfterSpawn env s u

/-- `CargoPlaneExecution.isActive`. -/
def cargoIsActive (s : CargoState) : Bool := s.active

/-! ### AirfieldExecution (src/core/execution/AirfieldExecution.ts) -/

/-- The kinds of child execution an airfield or construction can
register with the scheduler. -/
inductive SpawnKind
  | cargoPlaneK
  | bomberK
  | fighterJetK
  | completedUnitK
deriving DecidableEq

structure AirfieldState where
  active : Bool
  initialized : Bool
  airfield : Option UnitSt
  playerId : Nat
  checkOffset : Nat
  spawnTicker : Int
  fighterSpawnTicker : Int
deriving DecidableEq

structure AirfieldEnv where
  afDestroyed : Bool
  captureBy : Option Nat
  canBuild : Option Tile
  ticks : Nat
  totalAirfields : Nat
  activeBombers : Nat
  cargoChance : Bool
  possiblePortsNonempty : Bool
  bomberSpawnInterval : Int
  bomberTargetTile : Option Tile
  fighterJetSpawnInterval : Int
  activeFighters : Nat
  enemyAirUnitsPresent : Bool
deriving DecidableEq

/-- The body of `AirfieldExecution.tick` after build and liveness checks.
The bomber target-selection block (lines 93-186: busy-target filtering,
grouping by owner, priority/distance ranking) is pure local computation
abstracted by the `bomberTargetTile` oracle — `none` covers both "no
enemies in range" and "no matching type", the two early returns. -/
def airfieldRest (env : AirfieldEnv) (s : AirfieldState) (u : UnitSt) :
    Except ExecErr (AirfieldState × List SpawnKind) :=
  if ¬ u.uActive then .ok ({ s with active := false }, [])
  else
    let s := if s.playerId ≠ u.ownerId then { s with playerId := u.ownerId } else s
    if (env.ticks + s.checkOffset) % 10 ≠ 0 then .ok (s, [])
    else if env.activeBombers ≥ env.totalAirfields then .ok (s, [])
    else
      let spawns1 : List SpawnKind :=
        if env.cargoChance ∧ env.possiblePortsNonempty then
          [SpawnKind.cargoPlaneK]
        else []
      let s := { s with spawnTicker := s.spawnTicker + 1 }
      if s.spawnTicker < env.bomberSpawnInterval then .ok (s, spawns1)
      else
        let s := { s with spawnTicker := 0 }
        match env.bomberTargetTile with
        | none => .ok (s, spawns1)
        | some _ =>
          let spawns2 := spawns1 ++ [SpawnKind.bomberK]
          let s := { s with fighterSpawnTicker := s.fighterSpawnTicker + 1 }
          if s.fighterSpawnTicker < env.fighterJetSpawnInterval then
            .ok (s, spawns2)
          else
            let s := { s with fighterSpawnTicker := 0 }
            if env.activeFighters ≥ env.totalAirfields then .ok (s, spawns2)
            else if env.enemyAirUnitsPresent then
              .ok (s, spawns2 ++ [SpawnKind.fighterJetK])
            else .ok (s, spawns2)

/-- `AirfieldExecution.tick`; throws when `init` has not run. -/
def airfieldTick (env : AirfieldEnv) (s0 : AirfieldState) :
    Except ExecErr (AirfieldState × List SpawnKind) :=
  let s := { s0 with airfield := s0.airfield.map (fun (u : UnitSt) =>
      let u1 : UnitSt := if env.afDestroyed then { u with uActive := false } else u
      match env.captureBy with
      | some p => { u1 with ownerId := p }
      | none => u1) }
  if ¬ s.initialized then .error .notInitialized
  else
    match s.airfield with
    | none =>
      match env.canBuild with
      | none => .ok ({ s with active := false }, [])
      | some spawnT =>
        let u : UnitSt :=
          { uActive := true, health := 1, pos := spawnT, ownerId := s.playerId }
        airfieldRest env { s with airfield := some u } u
    | some u => airfieldRest env s u

/-- `AirfieldExecution.isActive`. -/
def airfieldIsActive (s : AirfieldState) : Bool := s.active

/-- State-only step for the trace lemma (the spawned children go to the
scheduler, not back into this execution's state). -/
def airfieldTickSt (env : AirfieldEnv) (s : AirfieldState) :
    Except ExecErr AirfieldState :=
  match airfieldTick env s with
  | .ok (s', _) => .ok s'
  | .error e => .error e

/-! ### ConstructionExecution (src/src/core/execution, second part of
FighterJetExecution.ts source file, lines 608-765) -/

structure ConstructionState where
  active : Bool
  construction : Option UnitSt
  playerId : Nat
  ticksUntilComplete : Int
  cost : Int
deriving DecidableEq

structure ConstructionEnv where
  consDestroyed : Bool
  captureBy : Option Nat
  constructionDuration : Option Int
  canBuild : Option Tile
  cost : Int
  typeSupported : Bool
deriving DecidableEq

/-- `ConstructionExecution.tick`.  `completeConstruction` registers the
finished unit's execution (modelled as a `completedUnitK` spawn) and
throws on an unsupported construction type (`typeSupported` oracle). -/
def constructionTick (env : ConstructionEnv) (s0 : ConstructionState) :
    Except ExecErr (ConstructionState × List SpawnKind) :=
  let s := { s0 with construction := s0.construction.map (fun (u : UnitSt) =>
      let u1 : UnitSt := if env.consDestroyed then { u with uActive := false } else u
      match env.captureBy with
      | some p => { u1 with ownerId := p }
      | none => u1) }
  match s.construction with
  | none =>
    match env.constructionDuration with
    | none =>
      if env.typeSupported then
        .ok ({ s with active := false }, [SpawnKind.completedUnitK])
      else .error .unexpected
    | some dur =>
      match env.canBuild with
      | none => .ok ({ s with active := false }, [])
      | some spawnT =>
        let u : UnitSt :=
          { uActive := true, health := 1, pos := spawnT, ownerId := s.playerId }
        .ok ({ s with construction := some u, cost := env.cost,
                      ticksUntilComplete := dur }, [])
  | some u =>
    if ¬ u.uActive then .ok ({ s with active := false }, [])
    else
      let s := if s.playerId ≠ u.ownerId then { s with playerId := u.ownerId } else s
      if s.ticksUntilComplete = 0 then
        if env.typeSupported then
          .ok ({ s with playerId := u.ownerId,
                        construction := some { u with uActive := false },
                        active := false }, [SpawnKind.completedUnitK])
        else .error .unexpected
      else .ok ({ s with ticksUntilComplete := s.ticksUntilComplete - 1 }, [])

/-- `ConstructionExecution.isActive`. -/
def constructionIsActive (s : ConstructionState) : Bool := s.active

/-- State-only step for the trace lemma. -/
def constructionTickSt (env : ConstructionEnv) (s : ConstructionState) :
    Except ExecErr ConstructionState :=
  match constructionTick env s with
  | .ok (s', _) => .ok s'
  | .error e => .error e

/-! ### FighterJetExecution (src/core/execution/FighterJetExecution.ts,
documented version, lines 245-580) -/

/-- The slice of the fighter-jet unit this execution reads and writes
(`targetTile` is stored on the unit and drives patrolling). -/
structure FjUnit where
  uActive : Bool
  health : Int
  pos : Tile
  targetTile : Option Tile
deriving DecidableEq

/-- The slice of a target unit `attack` reads. -/
structure FjTarget where
  tty : UnitTy
  tile : Tile
deriving DecidableEq

structure FjState where
  fighterJet : Option FjUnit
  inputUnit : Option FjUnit
  sentShellCount : Nat
deriving DecidableEq

structure FjEnv where
  extDamage : Int
  extKill : Bool
  hasAirfield : Bool
  healAmount : Int
  foundTarget : Option FjTarget
  distToTargetSq : Int
  dogfightDistSq : Int
  reachedDistSq : Int
  dogfightPick : Option Tile
  pathStep : Option Tile
  atShellTick : Bool
  randomPatrolTile : Option Tile
deriving DecidableEq

/-- `FighterJetExecution.attack` (second version, lines 399-499): the
bounded random dogfight-point sampling loop is abstracted by the
`dogfightPick` oracle and the straight-line move by `pathStep`; the
shell launch registers an execution with the scheduler (not state we
track) and `touch` is presentation-only. -/
def fjAttack (env : FjEnv) (s : FjState) (u : FjUnit) (tgt : FjTarget) :
    FjState :=
  let _moveTarget : Tile :=
    if env.distToTargetSq ≤ env.dogfightDistSq then
      match env.dogfightPick with
      | some p => p
      | none => tgt.tile
    else tgt.tile
  let u1 : FjUnit :=
    match env.pathStep with
    | some t => { u with pos := t }
    | none => u
  if env.distToTargetSq ≤ env.reachedDistSq then
    { s with fighterJet := some u1, sentShellCount := s.sentShellCount + 1 }
  else
    { s with fighterJet := some u1 }

/-- `FighterJetExecution.patrol` (lines 505-528). -/
def fjPatrol (env : FjEnv) (s : FjState) (u : FjUnit) : FjState :=
  let u1 : FjUnit :=
    match u.targetTile with
    | none => { u with targetTile := env.randomPatrolTile }
    | some _ => u
  match u1.targetTile with
  | none => { s with fighterJet := some u1 }
  | some _ =>
    match env.pathStep with
    | none => { s with fighterJet := some { u1 with targetTile := none } }
    | some t => { s with fighterJet := some { u1 with pos := t } }

/-- `FighterJetExecution.tick`.  `extDamage`/`extKill` apply the external
world's effect on the unit since the previous tick; a tick on an
execution whose unit was never spawned is the JavaScript `TypeError` on
`this.fighterJet.health()`. -/
def fjTick (env : FjEnv) (s : FjState) : Except ExecErr FjState :=
  match s.fighterJet with
  | none => .error .typeError
  | some u0 =>
    let u1 : FjUnit := { u0 with
      health := u0.health - env.extDamage,
      uActive := u0.uActive && !env.extKill }
    if u1.health ≤ 0 then
      .ok { s with fighterJet := some { u1 with uActive := false } }
    else
      let u2 : FjUnit :=
        if env.hasAirfield then { u1 with health := u1.health + env.healAmount }
        else u1
      let target : Option FjTarget :=
        match env.foundTarget with
        | some t =>
          if t.tty = UnitTy.tradeShip ∧ ¬ env.hasAirfield then none else some t
        | none => none
      match target with
      | some tgt => .ok (fjAttack env { s with fighterJet := some u2 } u2 tgt)
      | none => .ok (fjPatrol env { s with fighterJet := some u2 } u2)

/-- `FighterJetExecution.isActive`: `this.fighterJet?.isActive()`; the
optional-chained `undefined` is falsy, which we render as `false`. -/
def fjIsActive (s : FjState) : Bool :=
  match s.fighterJet with
  | some u => u.uActive
  | none => false

/-- `FighterJetExecution.init` (lines 264-291): adopt the input unit, or
attempt to build one at the patrol tile; on `canBuild` failure only a
warning message is displayed and the execution is left without a unit. -/
def fjInit (canBuild : Option Tile) (s : FjState) : FjState :=
  match s.inputUnit with
  | some u => { s with fighterJet := some u }
  | none =>
    match canBuild with
    | none => s
    | some spawnT =>
      let u : FjUnit :=
        { uActive := true, health := 1, pos := spawnT, targetTile := none }
      { s with fighterJet := some u }

/-! ### SAMMissileExecution (src/core/execution/SAMMissileExecution.ts) -/

structure SamState where
  active : Bool
  missile : Option UnitSt
deriving DecidableEq

structure SamEnv where
  missileDestroyed : Bool
  spawnTile : Tile
  targetActive : Bool
  ownerUnitActive : Bool
  sameOwner : Bool
  whitelisted : Bool
  targetPos : Tile
  rnds : List (Nat → Bool)

/-- The movement loop of `SAMMissileExecution.tick` (lines 95-128): one
`AirPathFinder.nextTile` call per iteration, `speed` iterations unless
the target is reached first; the per-iteration random draws are the
`rnds` list (its length is the speed). -/
def samLoop (targetPos : Tile) :
    List (Nat → Bool) → SamState → UnitSt → SamState
  | [], s, u => { s with missile := some u }
  | rnd :: rest, s, u =>
    match airNextTile rnd u.pos targetPos with
    | none =>
      { s with active := false, missile := some { u with uActive := false } }
    | some t => samLoop targetPos rest s { u with pos := t }

/-- Liveness and target-validity checks of `SAMMissileExecution.tick`
(lines 66-92), then the movement loop. -/
def samTickRest (env : SamEnv) (s : SamState) (u : UnitSt) :
    Except ExecErr SamState :=
  if ¬ u.uActive then .ok { s with active := false }
  else if ¬ env.targetActive ∨ ¬ env.ownerUnitActive ∨ env.sameOwner ∨
      ¬ env.whitelisted then
    .ok { s with missile := some { u with uActive := false }, active := false }
  else .ok (samLoop env.targetPos env.rnds s u)

/-- `SAMMissileExecution.tick`: unconditional spawn (no `canBuild`
check), liveness check, target-validity check (whitelist, owners,
launcher liveness), then the bounded movement loop. -/
def samTick (env : SamEnv) (s0 : SamState) : Except ExecErr SamState :=
  let s := if env.missileDestroyed then
      { s0 with missile := s0.missile.map (fun (u : UnitSt) => { u with uActive := false }) }
    else s0
  match s.missile with
  | none =>
    let u : UnitSt :=
      { uActive := true, health := 1, pos := env.spawnTile, ownerId := 0 }
    samTickRest env { s with missile := some u } u
  | some u => samTickRest env s u

/-- `SAMMissileExecution.isActive`. -/
def samIsActive (s : SamState) : Bool := s.active

/-! ## Claims -/

/-- C2: for non-null tiles with Manhattan distance strictly below the
`dist` parameter, `PathFinder.nextTile` returns `Completed` carrying the
current tile on that very call, leaves the whole pathfinder state
untouched (so no search is started), whatever cached route or
in-progress search the state holds. -/
theorem C2_close_enough_completed (env : PFEnv) (s : PFState)
    (curr dst : Tile) (dist : Int)
    (h : manhattanDist curr dst < dist) :
    pfNextTile env s (some curr) (some dst) dist = .ok (.completed curr, s) := by
  simp [pfNextTile, nextTileAux, h]

/-- Witness for C2 at curr = (0,0), dst = (0,1), dist = 2, with a cached
route and an in-progress search flag present in the state. -/
theorem C2_witness :
    manhattanDist ((0 : Int), (0 : Int)) ((0 : Int), (1 : Int)) < 2 ∧
    pfNextTile ⟨ComputeTag.pendingT, []⟩
      ⟨some (9, 9), some (7, 7), some [(1, 1)], false⟩
      (some (0, 0)) (some (0, 1)) 2 =
      .ok (.completed (0, 0), ⟨some (9, 9), some (7, 7), some [(1, 1)], false⟩) :=
  ⟨by decide,
   C2_close_enough_completed ⟨ComputeTag.pendingT, []⟩
     ⟨some (9, 9), some (7, 7), some [(1, 1)], false⟩
     (0, 0) (0, 1) 2 (by decide)⟩

/-- C10: calling `PathFinder.nextTile` with a null current or
destination tile returns `PathNotFound` without throwing and without
modifying any of the pathfinder's state (cached route, stored endpoints,
compute flag). -/
theorem C10_null_tile_path_not_found (env : PFEnv) (s : PFState)
    (curr dst : Option Tile) (dist : Int)
    (h : curr = none ∨ dst = none) :
    pfNextTile env s curr dst dist = .ok (.pathNotFound, s) := by
  rcases h with h | h
  · subst h; rfl
  · subst h
    cases curr with
    | none => rfl
    | some c => rfl

/-- Witness for C10 with a null destination and a state holding a cached
route. -/
theorem C10_witness :
    ((some ((3 : Int), (4 : Int)) : Option Tile) = none ∨
      (none : Option Tile) = none) ∧
    pfNextTile ⟨ComputeTag.completedT, [(5, 5)]⟩
      ⟨some (1, 1), some (2, 2), some [(3, 3)], true⟩
      (some (3, 4)) none 1 =
      .ok (.pathNotFound, ⟨some (1, 1), some (2, 2), some [(3, 3)], true⟩) :=
  ⟨Or.inr rfl,
   C10_null_tile_path_not_found ⟨ComputeTag.completedT, [(5, 5)]⟩
     ⟨some (1, 1), some (2, 2), some [(3, 3)], true⟩
     (some (3, 4)) none 1 (Or.inr rfl)⟩

/-- C1: with a cached route (and cached endpoints), a `nextTile` call
that is not already close enough recomputes exactly when the destination
has drifted (Manhattan) from the cached destination by more than the
tolerance determined by the current-to-destination Manhattan distance
(10 if > 50, 5 if > 25, else 0): within tolerance the cached route keeps
being consumed head-first with no state change besides the pop (no
search starts); above tolerance the cached route is discarded, the
search restarts at the given endpoints, and (the bounded first compute
step being incomplete) the call reports `Pending`. -/
theorem C1_recompute_exactly_on_drift (env : PFEnv) (s : PFState)
    (curr dst c0 d0 p : Tile) (rest : List Tile) (dist : Int)
    (hcf : s.computeFinished = true)
    (hpath : s.path = some (p :: rest))
    (hcurr : s.curr = some c0)
    (hdst : s.dst = some d0)
    (h1 : 1 ≤ dist)
    (h2 : dist ≤ manhattanDist curr dst) :
    (manhattanDist d0 dst ≤
        (if manhattanDist curr dst > 50 then 10
         else if manhattanDist curr dst > 25 then 5 else 0) →
      pfNextTile env s (some curr) (some dst) dist =
        .ok (.nextTileR p, { s with path := some rest })) ∧
    (manhattanDist d0 dst >
        (if manhattanDist curr dst > 50 then 10
         else if manhattanDist curr dst > 25 then 5 else 0) →
      env.computeRes = ComputeTag.pendingT →
      pfNextTile env s (some curr) (some dst) dist =
        .ok (.pending, { s with curr := some curr, dst := some dst,
                                path := none, computeFinished := false })) := by
  have hnl : ¬ manhattanDist curr dst < dist := not_lt.mpr h2
  have hnl1 : ¬ manhattanDist curr dst < 1 := by
    intro hc
    exact hnl (lt_of_lt_of_le hc h1)
  constructor
  · intro htol
    have hsr : shouldRecompute s curr dst = false := by
      simp [shouldRecompute, hpath, hcurr, hdst, not_lt.mpr htol]
    simp [pfNextTile, nextTileAux, hnl, hcf, hsr, hpath]
  · intro htol hpend
    have hsr : shouldRecompute s curr dst = true := by
      simp [shouldRecompute, hpath, hcurr, hdst, htol]
    simp [pfNextTile, nextTileAux, hnl, hcf, hsr, hnl1, hpend]

/-- Witness for C1: distance 10 to the destination (so tolerance 0),
cached route present; drift 0 keeps the route, and the theorem also
instantiates at a call consuming it. -/
theorem C1_witness :
    ((⟨some (0, 0), some (10, 0), some [(1, 0), (2, 0)], true⟩ :
        PFState).computeFinished = true) ∧
    manhattanDist ((10 : Int), (0 : Int)) ((10 : Int), (0 : Int)) ≤
      (if manhattanDist ((0 : Int), (0 : Int)) ((10 : Int), (0 : Int)) > 50 then 10
       else if manhattanDist ((0 : Int), (0 : Int)) ((10 : Int), (0 : Int)) > 25 then 5
       else 0) ∧
    pfNextTile ⟨ComputeTag.pendingT, []⟩
      ⟨some (0, 0), some (10, 0), some [(1, 0), (2, 0)], true⟩
      (some (0, 0)) (some (10, 0)) 1 =
      .ok (.nextTileR (1, 0),
        ⟨some (0, 0), some (10, 0), some [(2, 0)], true⟩) :=
  ⟨rfl, by decide,
   (C1_recompute_exactly_on_drift ⟨ComputeTag.pendingT, []⟩
      ⟨some (0, 0), some (10, 0), some [(1, 0), (2, 0)], true⟩
      (0, 0) (10, 0) (0, 0) (10, 0) (1, 0) [(2, 0)] 1
      rfl rfl rfl rfl (by decide) (by decide)).1 (by decide)⟩

/-- C5 counterexample: at position (0,0) with destination (1,5) the code
passes odds `floor(1 + |dy|/(|dx|+1)) = 3` to the random draw, while the
claim's minor/major formula gives 1 (it always gives 1, because the
smaller delta is always below the larger plus one); a draw that succeeds
exactly on odds 1 therefore makes the code step in y where the claimed
formula would force an x step. -/
theorem C5_counterexample :
    airOdds 0 0 1 5 = 3 ∧
    specOdds 0 0 1 5 = 1 ∧
    airOdds 0 0 1 5 ≠ specOdds 0 0 1 5 ∧
    airNextTile (fun n => decide (n = 1)) ((0 : Int), (0 : Int))
      ((1 : Int), (5 : Int)) = some (0, 1) := by
  refine ⟨by decide, by decide, by decide, by decide⟩

/-- C5 (amended): every step of the air mover advances exactly one axis
by exactly one tile, and the x axis is the one stepped exactly when the
random draw on odds `floor(1 + |dstY - y| / (|dstX - x| + 1))` succeeds
and the x delta is nonzero — so it is the y axis that is increasingly
favored as |dy| grows relative to |dx|, not the larger-delta axis via
the minor/major formula the claim states. -/
theorem C5_amended_step_and_odds (rnd : Nat → Bool) (t d t' : Tile)
    (h : airNextTile rnd t d = some t') :
    |t'.1 - t.1| + |t'.2 - t.2| = 1 ∧
    (t'.1 ≠ t.1 ↔ (rnd (airOdds t.1 t.2 d.1 d.2) = true ∧ t.1 ≠ d.1)) := by
  unfold airNextTile at h
  dsimp only at h
  split_ifs at h with h1 h2 h3 h4 h5 h6 h7 h8 h9 h10 <;>
    try exact Option.noConfusion h
  all_goals
    (obtain rfl : t' = _ := (Option.some_inj.mp h).symm)
  all_goals constructor
  all_goals try
    (first
      | (have e1 : t.1 + 1 - t.1 = 1 := by ring
         have e2 : t.2 - t.2 = 0 := by ring
         rw [e1, e2]; norm_num)
      | (have e1 : t.1 - 1 - t.1 = -1 := by ring
         have e2 : t.2 - t.2 = 0 := by ring
         rw [e1, e2]; norm_num)
      | (have e1 : t.1 - t.1 = 0 := by ring
         have e2 : t.2 + 1 - t.2 = 1 := by ring
         rw [e1, e2]; norm_num)
      | (have e1 : t.1 - t.1 = 0 := by ring
         have e2 : t.2 - 1 - t.2 = -1 := by ring
         rw [e1, e2]; norm_num))
  all_goals
    first
    | exact absurd ⟨rfl, rfl⟩ h10
    | (refine ⟨fun _ => h2, fun _ => ?_⟩; dsimp only; omega)
    | exact ⟨fun hx => absurd rfl hx, fun hx => absurd hx h2⟩

/-- Witness for C5's amended theorem at a step from (0,0) toward (3,0)
with an always-true draw: the x axis is stepped by one tile. -/
theorem C5_witness :
    airNextTile (fun _ => true) ((0 : Int), (0 : Int)) ((3 : Int), (0 : Int)) =
      some (1, 0) ∧
    |(1 : Int) - 0| + |(0 : Int) - 0| = 1 ∧
    (((1 : Int) ≠ 0) ↔ ((fun _ => true : Nat → Bool) (airOdds 0 0 3 0) = true ∧
      (0 : Int) ≠ 3)) :=
  ⟨by decide,
   (C5_amended_step_and_odds (fun _ => true) (0, 0) (3, 0) (1, 0) (by decide)).1,
   (C5_amended_step_and_odds (fun _ => true) (0, 0) (3, 0) (1, 0) (by decide)).2⟩

/-- C6 counterexample: from (0,0) toward (1,0) (x delta 1, y delta 0,
any successful draw) the mover steps onto the destination and reports
that step as a tile, not as Arrived — yet both post-step deltas are
zero, so the claimed "Arrived iff both post-step deltas are zero" fails
in the if direction. -/
theorem C6_counterexample :
    airNextTile (fun _ => true) ((0 : Int), (0 : Int)) ((1 : Int), (0 : Int)) =
      some (1, 0) ∧
    ¬ airNextTile (fun _ => true) ((0 : Int), (0 : Int)) ((1 : Int), (0 : Int)) =
      none := by
  refine ⟨by decide, by decide⟩

/-- C6 (amended): provided a 1-in-1 chance always succeeds (the spec's
"probability ratio out of 1" semantics for `PseudoRandom.chance`), the
air mover reports Arrived exactly when it is called with current equal
to destination — immediately on equality, and never while either delta
is nonzero; a step that lands on the destination is however reported as
a tile, with Arrived following on the next call. -/
theorem C6_amended_arrival (rnd : Nat → Bool) (t d : Tile)
    (h1 : rnd 1 = true) :
    airNextTile rnd t d = none ↔ t = d := by
  unfold airNextTile
  dsimp only
  by_cases heq : t.1 = d.1 ∧ t.2 = d.2
  · rw [if_pos heq]
    simp [Prod.ext_iff, heq]
  · rw [if_neg heq]
    have htd : ¬ t = d := by
      intro hx
      subst hx
      exact heq ⟨rfl, rfl⟩
    by_cases hc : rnd (airOdds t.1 t.2 d.1 d.2) = true ∧ t.1 ≠ d.1
    · rw [if_pos hc]
      by_cases hlt : t.1 < d.1
      · rw [if_pos hlt]
        rw [if_neg (show ¬((t.1 + 1, t.2).1 = t.1 ∧ (t.1 + 1, t.2).2 = t.2) by
          dsimp only; omega)]
        simp [htd]
      · rw [if_neg hlt]
        rw [if_neg (show ¬((t.1 - 1, t.2).1 = t.1 ∧ (t.1 - 1, t.2).2 = t.2) by
          dsimp only; omega)]
        simp [htd]
    · rw [if_neg hc]
      by_cases hy : t.2 = d.2
      · exfalso
        have hx : t.1 ≠ d.1 := fun hx => heq ⟨hx, hy⟩
        have hodds : airOdds t.1 t.2 d.1 d.2 = 1 := by
          unfold airOdds
          have hz : (d.2 - t.2).natAbs = 0 := by omega
          rw [hz]
          simp
        exact hc ⟨by rw [hodds]; exact h1, hx⟩
      · by_cases hlt : t.2 < d.2
        · rw [if_pos hlt]
          rw [if_neg (show ¬((t.1, t.2 + 1).1 = t.1 ∧ (t.1, t.2 + 1).2 = t.2) by
            dsimp only; omega)]
          simp [htd]
        · have hgt : t.2 > d.2 := by omega
          rw [if_neg hlt, if_pos hgt]
          rw [if_neg (show ¬((t.1, t.2 - 1).1 = t.1 ∧ (t.1, t.2 - 1).2 = t.2) by
            dsimp only; omega)]
          simp [htd]

/-- Witness for C6's amended theorem: with the always-true draw the
mover reports Arrived at (4,4) = (4,4) (and, by the iff, would not at
distinct tiles). -/
theorem C6_witness :
    ((fun _ => true : Nat → Bool) 1 = true) ∧
    (airNextTile (fun _ => true) ((4 : Int), (4 : Int)) ((4 : Int), (4 : Int)) =
        none ↔ ((4 : Int), (4 : Int)) = ((4 : Int), (4 : Int))) :=
  ⟨rfl, C6_amended_arrival (fun _ => true) (4, 4) (4, 4) rfl⟩

/-- Sorting a two-element list with a stable sort compares the pair
once. -/
lemma insertionSort_pair {α : Type} (r : α → α → Prop) [DecidableRel r]
    (a b : α) :
    List.insertionSort r [a, b] = if r a b then [a, b] else [b, a] := by
  simp only [List.insertionSort, List.orderedInsert]

/-- C7: among two filter-passing candidates, both `findClosest` and the
fighter jet's `findTargetUnit` rank first the FighterJet over a
non-FighterJet whatever the distances, and the strictly closer candidate
when the two have equal priority — in either input order. -/
theorem C7_target_priority_then_distance (start : Tile) (a b : CUnit)
    (pred : CUnit → Bool) (ha : pred a = true) (hb : pred b = true)
    (selfUid selfOwner : Nat) (friendly : Nat → Bool)
    (hfa : fjTargetPred selfUid selfOwner friendly a = true)
    (hfb : fjTargetPred selfUid selfOwner friendly b = true) :
    ((a.uty = UnitTy.fighterJet ∧ b.uty ≠ UnitTy.fighterJet) →
      (findClosest start [a, b] pred).head? = some a ∧
      (findClosest start [b, a] pred).head? = some a ∧
      findTargetUnit selfUid selfOwner friendly start [a, b] = some a ∧
      findTargetUnit selfUid selfOwner friendly start [b, a] = some a) ∧
    (((a.uty = UnitTy.fighterJet) ↔ (b.uty = UnitTy.fighterJet)) →
      euclideanDistSquared start a.pos < euclideanDistSquared start b.pos →
      (findClosest start [a, b] pred).head? = some a ∧
      (findClosest start [b, a] pred).head? = some a ∧
      findTargetUnit selfUid selfOwner friendly start [a, b] = some a ∧
      findTargetUnit selfUid selfOwner friendly start [b, a] = some a) := by
  constructor
  · rintro ⟨haf, hbf⟩
    have hab : unitCmp start a b ≤ 0 := by
      unfold unitCmp
      rw [if_pos ⟨haf, hbf⟩]
      norm_num
    have hba : ¬ unitCmp start b a ≤ 0 := by
      unfold unitCmp
      rw [if_neg (by tauto), if_pos ⟨hbf, haf⟩]
      norm_num
    refine ⟨?_, ?_, ?_, ?_⟩ <;>
      simp [findClosest, findTargetUnit, ha, hb, hfa, hfb,
        insertionSort_pair, hab, hba]
  · intro hpr hd
    have hab : unitCmp start a b ≤ 0 := by
      unfold unitCmp
      by_cases haf : a.uty = UnitTy.fighterJet
      · rw [if_neg (by rw [hpr] at haf; tauto), if_neg (by tauto)]
        omega
      · rw [if_neg (by tauto), if_neg (by rw [← hpr] at *; tauto)]
        omega
    have hba : ¬ unitCmp start b a ≤ 0 := by
      unfold unitCmp
      by_cases haf : a.uty = UnitTy.fighterJet
      · rw [if_neg (by rw [hpr] at haf; tauto), if_neg (by tauto)]
        omega
      · rw [if_neg (by rw [← hpr] at *; tauto), if_neg (by tauto)]
        omega
    refine ⟨?_, ?_, ?_, ?_⟩ <;>
      simp [findClosest, findTargetUnit, ha, hb, hfa, hfb,
        insertionSort_pair, hab, hba]

/-- Witness for C7: a FighterJet at distance² 25 outranks a Bomber at
distance² 1 in both selectors and both input orders. -/
theorem C7_witness :
    (fun (_ : CUnit) => true) ⟨0, UnitTy.fighterJet, (5, 0), 1, true⟩ = true ∧
    fjTargetPred 99 3 (fun _ => false)
      ⟨0, UnitTy.fighterJet, (5, 0), 1, true⟩ = true ∧
    (findClosest (0, 0)
        [⟨0, UnitTy.fighterJet, (5, 0), 1, true⟩,
         ⟨1, UnitTy.bomber, (1, 0), 2, true⟩]
        (fun _ => true)).head? =
      some ⟨0, UnitTy.fighterJet, (5, 0), 1, true⟩ ∧
    findTargetUnit 99 3 (fun _ => false) (0, 0)
        [⟨1, UnitTy.bomber, (1, 0), 2, true⟩,
         ⟨0, UnitTy.fighterJet, (5, 0), 1, true⟩] =
      some ⟨0, UnitTy.fighterJet, (5, 0), 1, true⟩ :=
  ⟨rfl, by decide,
   ((C7_target_priority_then_distance (0, 0)
      ⟨0, UnitTy.fighterJet, (5, 0), 1, true⟩
      ⟨1, UnitTy.bomber, (1, 0), 2, true⟩
      (fun _ => true) rfl rfl 99 3 (fun _ => false)
      (by decide) (by decide)).1 (by decide)).1,
   ((C7_target_priority_then_distance (0, 0)
      ⟨0, UnitTy.fighterJet, (5, 0), 1, true⟩
      ⟨1, UnitTy.bomber, (1, 0), 2, true⟩
      (fun _ => true) rfl rfl 99 3 (fun _ => false)
      (by decide) (by decide)).1 (by decide)).2.2.2⟩

/-- Once a Boolean observation is false, it stays false along any run of
ticks whose individual steps preserve falsity. -/
lemma runTicks_preserves_false {E S : Type} (tick : E → S → Except ExecErr S)
    (P : S → Bool)
    (hstep : ∀ e s s', tick e s = .ok s' → P s = false → P s' = false) :
    ∀ envs s, P s = false → P (runTicks tick envs s) = false := by
  intro envs
  induction envs with
  | nil => intro s hs; exact hs
  | cons e es ih =>
    intro s hs
    simp only [runTicks]
    apply ih
    cases htick : tick e s with
    | ok s' => exact hstep e s s' htick hs
    | error err => exact hs

/-- A bomber-execution tick never re-activates the execution. -/
lemma bomberTick_active_mono (e : BomberEnv) (s s' : BomberState)
    (h : bomberTick e s = .ok s') (hs : s.active = false) :
    s'.active = false := by
  unfold bomberTick bomberRest bomberMove dropBomb at h
  dsimp only at h
  split at h <;> split at h <;>
    first
    | (cases h; simpa using hs)
    | (split_ifs at h <;> (try split at h) <;> (try split_ifs at h) <;>
        cases h <;> simpa using hs)

/-- A cargo-plane-execution tick never re-activates the execution. -/
lemma cargoTick_active_mono (e : CargoEnv) (s s' : CargoState)
    (h : cargoTick e s = .ok s') (hs : s.active = false) :
    s'.active = false := by
  unfold cargoTick cargoAfterSpawn cargoValidate cargoMove cargoComplete at h
  dsimp only at h
  split at h <;> split at h <;>
    first
    | (cases h; simpa using hs)
    | (split_ifs at h <;> (try split at h) <;> (try split_ifs at h) <;>
        (try split at h) <;> cases h <;> simpa using hs)

/-- The post-build body of an airfield tick never re-activates the
execution. -/
lemma airfieldRest_mono (e : AirfieldEnv) (s : AirfieldState) (u : UnitSt)
    (s' : AirfieldState) (out : List SpawnKind)
    (h : airfieldRest e s u = .ok (s', out)) (hs : s.active = false) :
    s'.active = false := by
  unfold airfieldRest at h
  dsimp only at h
  repeat'
    first
    | exact Except.noConfusion h
    | (cases h; first | rfl | exact hs)
    | split at h
    | split_ifs at h

/-- An airfield-execution tick never re-activates the execution
(pair-returning form). -/
lemma airfieldTick_pair_mono (e : AirfieldEnv) (s s' : AirfieldState)
    (out : List SpawnKind)
    (h : airfieldTick e s = .ok (s', out)) (hs : s.active = false) :
    s'.active = false := by
  unfold airfieldTick at h
  dsimp only at h
  repeat'
    first
    | exact Except.noConfusion h
    | exact airfieldRest_mono _ _ _ _ _ h hs
    | (cases h; first | rfl | exact hs)
    | split at h
    | split_ifs at h

/-- An airfield-execution tick never re-activates the execution. -/
lemma airfieldTick_active_mono (e : AirfieldEnv) (s s' : AirfieldState)
    (h : airfieldTickSt e s = .ok s') (hs : s.active = false) :
    s'.active = false := by
  unfold airfieldTickSt at h
  cases hT : airfieldTick e s with
  | ok p =>
    obtain ⟨s1, out⟩ := p
    rw [hT] at h
    cases h
    exact airfieldTick_pair_mono e s _ out hT hs
  | error err =>
    rw [hT] at h
    exact Except.noConfusion h

/-- A construction-execution tick never re-activates the execution
(pair-returning form). -/
lemma constructionTick_pair_mono (e : ConstructionEnv)
    (s s' : ConstructionState) (out : List SpawnKind)
    (h : constructionTick e s = .ok (s', out)) (hs : s.active = false) :
    s'.active = false := by
  unfold constructionTick at h
  dsimp only at h
  repeat'
    first
    | exact Except.noConfusion h
    | (cases h; first | rfl | exact hs)
    | split at h
    | split_ifs at h

/-- A construction-execution tick never re-activates the execution. -/
lemma constructionTick_active_mono (e : ConstructionEnv)
    (s s' : ConstructionState)
    (h : constructionTickSt e s = .ok s') (hs : s.active = false) :
    s'.active = false := by
  unfold constructionTickSt at h
  cases hT : constructionTick e s with
  | ok p =>
    obtain ⟨s1, out⟩ := p
    rw [hT] at h
    cases h
    exact constructionTick_pair_mono e s _ out hT hs
  | error err =>
    rw [hT] at h
    exact Except.noConfusion h

/-- The attack behavior leaves the fighter jet's liveness untouched. -/
lemma fjAttack_isActive (e : FjEnv) (s : FjState) (u : FjUnit)
    (tgt : FjTarget) :
    fjIsActive (fjAttack e s u tgt) = u.uActive := by
  unfold fjAttack fjIsActive
  dsimp only
  cases e.pathStep <;> split_ifs <;> rfl

/-- The patrol behavior leaves the fighter jet's liveness untouched. -/
lemma fjPatrol_isActive (e : FjEnv) (s : FjState) (u : FjUnit) :
    fjIsActive (fjPatrol e s u) = u.uActive := by
  unfold fjPatrol fjIsActive
  dsimp only
  cases htt : u.targetTile with
  | none =>
    simp only [htt]
    cases e.randomPatrolTile with
    | none => rfl
    | some p => cases e.pathStep <;> rfl
  | some tt =>
    simp only [htt]
    cases e.pathStep <;> rfl

/-- A fighter-jet-execution tick never revives the fighter jet unit. -/
lemma fjTick_active_mono (e : FjEnv) (s s' : FjState)
    (h : fjTick e s = .ok s') (hs : fjIsActive s = false) :
    fjIsActive s' = false := by
  unfold fjTick at h
  cases hsf : s.fighterJet with
  | none =>
    rw [hsf] at h
    exact Except.noConfusion h
  | some u0 =>
    have hu0 : u0.uActive = false := by
      unfold fjIsActive at hs
      rw [hsf] at hs
      exact hs
    rw [hsf] at h
    dsimp only at h
    split_ifs at h <;>
      first
      | (cases h; rfl)
      | (split at h <;> cases h <;>
          first
          | (rw [fjAttack_isActive]; simp [hu0])
          | (rw [fjPatrol_isActive]; simp [hu0]))

/-- The SAM movement loop never re-activates the execution. -/
lemma samLoop_active_mono (tp : Tile) (l : List (Nat → Bool))
    (s : SamState) (u : UnitSt) (hs : s.active = false) :
    (samLoop tp l s u).active = false := by
  induction l generalizing u with
  | nil => simpa [samLoop] using hs
  | cons rnd rest ih =>
    unfold samLoop
    cases hx : airNextTile rnd u.pos tp with
    | none => simp only [hx]
    | some t =>
      simp only [hx]
      exact ih _

/-- A SAM-missile-execution tick never re-activates the execution. -/
lemma samTick_active_mono (e : SamEnv) (s s' : SamState)
    (h : samTick e s = .ok s') (hs : s.active = false) :
    s'.active = false := by
  unfold samTick samTickRest at h
  dsimp only at h
  repeat'
    first
    | exact Except.noConfusion h
    | (cases h; first | rfl | exact hs | exact samLoop_active_mono _ _ _ _ hs)
    | split at h
    | split_ifs at h

/-- C8: for each execution in the source (Bomber, CargoPlane, Airfield,
Construction, FighterJet, SAM missile), once `isActive()` reports false
it reports false after every later sequence of tick calls, whatever the
environments supply: no operation sets the execution active again.
(Per the documented lifecycle, `init` runs exactly once before the first
tick, so the whole post-init observable life is covered.) -/
theorem C8_inactive_is_permanent :
    (∀ (envs : List BomberEnv) (s : BomberState), bomberIsActive s = false →
      bomberIsActive (runTicks bomberTick envs s) = false) ∧
    (∀ (envs : List CargoEnv) (s : CargoState), cargoIsActive s = false →
      cargoIsActive (runTicks cargoTick envs s) = false) ∧
    (∀ (envs : List AirfieldEnv) (s : AirfieldState),
      airfieldIsActive s = false →
      airfieldIsActive (runTicks airfieldTickSt envs s) = false) ∧
    (∀ (envs : List ConstructionEnv) (s : ConstructionState),
      constructionIsActive s = false →
      constructionIsActive (runTicks constructionTickSt envs s) = false) ∧
    (∀ (envs : List FjEnv) (s : FjState), fjIsActive s = false →
      fjIsActive (runTicks fjTick envs s) = false) ∧
    (∀ (envs : List SamEnv) (s : SamState), samIsActive s = false →
      samIsActive (runTicks samTick envs s) = false) :=
  ⟨runTicks_preserves_false bomberTick bomberIsActive
      (fun e s s' h hs => bomberTick_active_mono e s s' h hs),
   runTicks_preserves_false cargoTick cargoIsActive
      (fun e s s' h hs => cargoTick_active_mono e s s' h hs),
   runTicks_preserves_false airfieldTickSt airfieldIsActive
      (fun e s s' h hs => airfieldTick_active_mono e s s' h hs),
   runTicks_preserves_false constructionTickSt constructionIsActive
      (fun e s s' h hs => constructionTick_active_mono e s s' h hs),
   runTicks_preserves_false fjTick fjIsActive
      (fun e s s' h hs => fjTick_active_mono e s s' h hs),
   runTicks_preserves_false samTick samIsActive
      (fun e s s' h hs => samTick_active_mono e s s' h hs)⟩

/-- Witness for C8: concrete inactive states of all six executions stay
inactive across a concrete tick. -/
theorem C8_witness :
    bomberIsActive (runTicks bomberTick
      [⟨false, none, 3, 0, none⟩]
      ⟨false, some ⟨true, 1, (0, 0), 0⟩, 3, false, 0⟩) = false ∧
    cargoIsActive (runTicks cargoTick
      [⟨false, none, none, 1, 1, true, true, [], some (2, 2)⟩]
      ⟨false, some ⟨true, 1, (0, 0), 1⟩, 0, false, 1⟩) = false ∧
    airfieldIsActive (runTicks airfieldTickSt
      [⟨false, none, some (1, 1), 0, 4, 2, true, true, 5, some (9, 9), 5, 0,
        true⟩]
      ⟨false, true, some ⟨true, 1, (0, 0), 0⟩, 0, 0, 0, 0⟩) = false ∧
    constructionIsActive (runTicks constructionTickSt
      [⟨false, none, some 3, some (1, 1), 10, true⟩]
      ⟨false, some ⟨true, 1, (0, 0), 0⟩, 0, 3, 10⟩) = false ∧
    fjIsActive (runTicks fjTick
      [⟨0, false, true, 1, none, 100, 4, 1, none, some (1, 1), false,
        some (2, 2)⟩]
      ⟨some ⟨false, 5, (0, 0), none⟩, none, 0⟩) = false ∧
    samIsActive (runTicks samTick
      [⟨false, (0, 0), true, true, false, true, (5, 5),
        [fun _ => true, fun _ => false]⟩]
      ⟨false, some ⟨true, 1, (0, 0), 0⟩⟩) = false :=
  ⟨C8_inactive_is_permanent.1 _ _ rfl,
   C8_inactive_is_permanent.2.1 _ _ rfl,
   C8_inactive_is_permanent.2.2.1 _ _ rfl,
   C8_inactive_is_permanent.2.2.2.1 _ _ rfl,
   C8_inactive_is_permanent.2.2.2.2.1 _ _ rfl,
   C8_inactive_is_permanent.2.2.2.2.2 _ _ rfl⟩

/-- C9: when the spawn precondition fails (`canBuild` falsy at the tick
or init where spawning is attempted), the Bomber and CargoPlane ticks
return normally with the execution exactly deactivated and no unit
built, and the FighterJet init returns normally leaving the execution
without a unit, so that `isActive()` thereafter reports falsy. -/
theorem C9_failed_spawn_deactivates :
    (∀ (e : BomberEnv) (s : BomberState), s.bomber = none →
      e.canBuild = none →
      bomberTick e s = .ok { s with active := false }) ∧
    (∀ (e : CargoEnv) (s : CargoState), s.cargoPlane = none →
      e.canBuild = none →
      cargoTick e s = .ok { s with active := false }) ∧
    (∀ (canBuild : Option Tile) (s : FjState), s.inputUnit = none →
      s.fighterJet = none → canBuild = none →
      fjInit canBuild s = s ∧ fjIsActive (fjInit canBuild s) = false) := by
  refine ⟨?_, ?_, ?_⟩
  · intro e s hb hcb
    cases s
    simp_all [bomberTick]
  · intro e s hc hcb
    cases s
    simp_all [cargoTick]
  · intro canBuild s hin hfj hcb
    cases s
    simp_all [fjInit, fjIsActive]

/-- Witness for C9 at concrete pre-spawn states and environments whose
`canBuild` is falsy. -/
theorem C9_witness :
    ((⟨true, none, 3, false, 0⟩ : BomberState).bomber = none ∧
      bomberTick ⟨false, none, 3, 0, none⟩ ⟨true, none, 3, false, 0⟩ =
        .ok ⟨false, none, 3, false, 0⟩) ∧
    ((⟨true, none, 0, false, 1⟩ : CargoState).cargoPlane = none ∧
      cargoTick ⟨false, none, none, 1, 1, true, true, [], none⟩
        ⟨true, none, 0, false, 1⟩ =
        .ok ⟨false, none, 0, false, 1⟩) ∧
    (fjInit none ⟨none, none, 0⟩ = ⟨none, none, 0⟩ ∧
      fjIsActive (fjInit none ⟨none, none, 0⟩) = false) :=
  ⟨⟨rfl, C9_failed_spawn_deactivates.1 ⟨false, none, 3, 0, none⟩
      ⟨true, none, 3, false, 0⟩ rfl rfl⟩,
   ⟨rfl, C9_failed_spawn_deactivates.2.1
      ⟨false, none, none, 1, 1, true, true, [], none⟩
      ⟨true, none, 0, false, 1⟩ rfl rfl⟩,
   C9_failed_spawn_deactivates.2.2 none ⟨none, none, 0⟩ rfl rfl rfl⟩

/-- Euclidean length is nonnegative. -/
lemma euclid_nonneg (a b : ℝ) : 0 ≤ euclid a b := Real.sqrt_nonneg _

/-- Euclidean length along an axis is the absolute value. -/
lemma euclid_x0 (a : ℝ) : euclid a 0 = |a| := by
  simp [euclid, Real.sqrt_sq_eq_abs]

/-- Scaling both components scales the length. -/
lemma euclid_smul (k a b : ℝ) : euclid (k * a) (k * b) = |k| * euclid a b := by
  unfold euclid
  rw [mul_pow, mul_pow, ← mul_add, Real.sqrt_mul (sq_nonneg k),
    Real.sqrt_sq_eq_abs]

/-- The planar norm as the complex absolute value. -/
lemma euclid_eq_cabs (a b : ℝ) : euclid a b = Complex.abs ⟨a, b⟩ := by
  rw [Complex.abs_apply, Complex.normSq_mk, euclid]
  congr 1
  ring

/-- Triangle inequality for the planar norm. -/
lemma euclid_triangle (a b c d : ℝ) :
    euclid (a + c) (b + d) ≤ euclid a b + euclid c d := by
  rw [euclid_eq_cabs, euclid_eq_cabs, euclid_eq_cabs]
  have hz : (⟨a + c, b + d⟩ : ℂ) = ⟨a, b⟩ + ⟨c, d⟩ := by
    apply Complex.ext <;> simp
  rw [hz]
  exact Complex.abs.add_le _ _

/-- Componentwise absolute bounds bound the length. -/
lemma euclid_le_of_abs_le {a b c d : ℝ} (h1 : |a| ≤ c) (h2 : |b| ≤ d) :
    euclid a b ≤ euclid c d := by
  unfold euclid
  apply Real.sqrt_le_sqrt
  have ha : a ^ 2 ≤ c ^ 2 := by
    rw [← sq_abs a]
    exact pow_le_pow_left (abs_nonneg a) h1 2
  have hb : b ^ 2 ≤ d ^ 2 := by
    rw [← sq_abs b]
    exact pow_le_pow_left (abs_nonneg b) h2 2
  linarith

/-- JavaScript rounding moves a point by at most one half. -/
lemma jsRound_abs_le (x : ℝ) : |(jsRound x : ℝ) - x| ≤ 1 / 2 := by
  unfold jsRound
  have h1 : ((⌊x + 1 / 2⌋ : ℤ) : ℝ) ≤ x + 1 / 2 := Int.floor_le _
  have h2 : x + 1 / 2 - 1 < ((⌊x + 1 / 2⌋ : ℤ) : ℝ) := Int.sub_one_lt_floor _
  rw [abs_le]
  constructor <;> linarith

/-- The square-root of one half is below one. -/
lemma sqrt_half_lt_one : Real.sqrt (1 / 2) < 1 := by
  have h := Real.sqrt_lt_sqrt (by norm_num : (0 : ℝ) ≤ 1 / 2)
    (by norm_num : (1 : ℝ) / 2 < 1)
  rwa [Real.sqrt_one] at h

/-- The straight mover's post-step lattice point: the rounding of
`current + unit-direction * speed` (source lines 141-148). -/
noncomputable def straightStep (curr dst : Tile) (speed : ℝ) : Tile :=
  let dx : ℝ := (dst.1 : ℝ) - (curr.1 : ℝ)
  let dy : ℝ := (dst.2 : ℝ) - (curr.2 : ℝ)
  let dist := euclid dx dy
  (jsRound ((curr.1 : ℝ) + dx / dist * speed),
   jsRound ((curr.2 : ℝ) + dy / dist * speed))

/-- C3: for any nonnegative speed the straight-line mover reports
Arrived when the Euclidean distance to the destination is at most the
speed (in particular when current equals destination); otherwise it
steps to the rounding of `current + unit-direction * speed`, except that
it reports Arrived instead when the post-step distance to the
destination is itself at most the speed. -/
theorem C3_straight_mover (curr dst : Tile) (speed : ℝ) (hsp : 0 ≤ speed) :
    (curr = dst → straightNextTile curr dst speed = none) ∧
    (euclid ((dst.1 : ℝ) - (curr.1 : ℝ)) ((dst.2 : ℝ) - (curr.2 : ℝ)) ≤ speed →
      straightNextTile curr dst speed = none) ∧
    (speed < euclid ((dst.1 : ℝ) - (curr.1 : ℝ)) ((dst.2 : ℝ) - (curr.2 : ℝ)) →
      euclid ((dst.1 : ℝ) - ((straightStep curr dst speed).1 : ℝ))
        ((dst.2 : ℝ) - ((straightStep curr dst speed).2 : ℝ)) ≤ speed →
      straightNextTile curr dst speed = none) ∧
    (speed < euclid ((dst.1 : ℝ) - (curr.1 : ℝ)) ((dst.2 : ℝ) - (curr.2 : ℝ)) →
      speed < euclid ((dst.1 : ℝ) - ((straightStep curr dst speed).1 : ℝ))
        ((dst.2 : ℝ) - ((straightStep curr dst speed).2 : ℝ)) →
      straightNextTile curr dst speed = some (straightStep curr dst speed)) := by
  refine ⟨?_, ?_, ?_, ?_⟩
  · intro h
    subst h
    have hz : euclid ((curr.1 : ℝ) - (curr.1 : ℝ)) ((curr.2 : ℝ) - (curr.2 : ℝ)) = 0 := by
      simp [euclid]
    unfold straightNextTile
    dsimp only
    rw [if_pos (by rw [hz]; exact hsp)]
  · intro h
    unfold straightNextTile
    dsimp only
    rw [if_pos h]
  · intro h1 h2
    unfold straightStep at h2
    dsimp only at h2
    unfold straightNextTile
    dsimp only
    rw [if_neg (not_le.mpr h1), if_pos h2]
  · intro h1 h2
    unfold straightStep at h2
    dsimp only at h2
    unfold straightNextTile straightStep
    dsimp only
    rw [if_neg (not_le.mpr h1), if_neg (not_le.mpr h2)]

/-- Concrete 3-4-5 evaluation used by the C3 witness. -/
lemma euclid_three_four : euclid 3 4 = 5 := by
  unfold euclid
  rw [show (3 : ℝ) ^ 2 + 4 ^ 2 = 5 ^ 2 by norm_num,
    Real.sqrt_sq (by norm_num : (0 : ℝ) ≤ 5)]

/-- Witness for C3 at curr = (0,0), dst = (3,4), speed = 5: the distance
is exactly 5 ≤ 5, so the mover snaps to Arrived on the first call. -/
theorem C3_witness :
    (0 : ℝ) ≤ 5 ∧
    euclid (((3 : Int) : ℝ) - ((0 : Int) : ℝ))
      (((4 : Int) : ℝ) - ((0 : Int) : ℝ)) ≤ 5 ∧
    straightNextTile ((0 : Int), (0 : Int)) ((3 : Int), (4 : Int)) 5 = none := by
  have he : euclid (((3 : Int) : ℝ) - ((0 : Int) : ℝ))
      (((4 : Int) : ℝ) - ((0 : Int) : ℝ)) = 5 := by
    rw [show ((3 : Int) : ℝ) - ((0 : Int) : ℝ) = 3 by norm_num,
      show ((4 : Int) : ℝ) - ((0 : Int) : ℝ) = 4 by norm_num]
    exact euclid_three_four
  refine ⟨by norm_num, le_of_eq he, ?_⟩
  exact (C3_straight_mover ((0 : Int), (0 : Int)) ((3 : Int), (4 : Int)) 5
    (by norm_num)).2.1 (le_of_eq he)

/-- C4 (amended): for every speed of at least one tile per tick, if the
speed is below the distance to the destination and the straight mover
returns a step tile, the Euclidean distance from that tile to the
destination is strictly smaller than from the current tile.  (The
amendment restricts the claim to speeds ≥ 1; the counterexample shows it
fails for small fractional speeds, where rounding can cancel the whole
step.) -/
theorem C4_amended_strict_progress (curr dst : Tile) (speed : ℝ)
    (h1 : 1 ≤ speed)
    (h2 : speed <
      euclid ((dst.1 : ℝ) - (curr.1 : ℝ)) ((dst.2 : ℝ) - (curr.2 : ℝ)))
    (t : Tile) (ht : straightNextTile curr dst speed = some t) :
    euclid ((dst.1 : ℝ) - (t.1 : ℝ)) ((dst.2 : ℝ) - (t.2 : ℝ)) <
      euclid ((dst.1 : ℝ) - (curr.1 : ℝ)) ((dst.2 : ℝ) - (curr.2 : ℝ)) := by
  set dx := ((dst.1 : ℝ) - (curr.1 : ℝ)) with hdx
  set dy := ((dst.2 : ℝ) - (curr.2 : ℝ)) with hdy
  set D := euclid dx dy with hDdef
  have hD0 : (0 : ℝ) < D := lt_trans (lt_of_lt_of_le zero_lt_one h1) h2
  have hDne : D ≠ 0 := ne_of_gt hD0
  unfold straightNextTile at ht
  dsimp only at ht
  rw [if_neg (not_le.mpr h2)] at ht
  set px := (curr.1 : ℝ) + dx / D * speed with hpx
  set py := (curr.2 : ℝ) + dy / D * speed with hpy
  split_ifs at ht with hrem
  obtain rfl : t = (jsRound px, jsRound py) := (Option.some_inj.mp ht).symm
  dsimp only
  have hb1 : (dst.1 : ℝ) = dx + (curr.1 : ℝ) := by rw [hdx]; ring
  have hb2 : (dst.2 : ℝ) = dy + (curr.2 : ℝ) := by rw [hdy]; ring
  have ha1 : (dst.1 : ℝ) - px = (1 - speed / D) * dx := by
    rw [hb1, hpx]; ring
  have ha2 : (dst.2 : ℝ) - py = (1 - speed / D) * dy := by
    rw [hb2, hpy]; ring
  have hfrac : speed / D < 1 := (div_lt_one hD0).mpr h2
  have hfirst : euclid ((dst.1 : ℝ) - px) ((dst.2 : ℝ) - py) = D - speed := by
    rw [ha1, ha2, euclid_smul, ← hDdef,
      abs_of_nonneg (by linarith : (0 : ℝ) ≤ 1 - speed / D),
      sub_mul, one_mul, div_mul_cancel₀ _ hDne]
  have hsecond : euclid (px - ((jsRound px : ℤ) : ℝ))
      (py - ((jsRound py : ℤ) : ℝ)) ≤ Real.sqrt (1 / 2) := by
    have h13 : euclid ((1 : ℝ) / 2) (1 / 2) = Real.sqrt (1 / 2) := by
      unfold euclid
      norm_num
    rw [← h13]
    apply euclid_le_of_abs_le
    · rw [abs_sub_comm]
      exact jsRound_abs_le px
    · rw [abs_sub_comm]
      exact jsRound_abs_le py
  have hsplit1 : (dst.1 : ℝ) - ((jsRound px : ℤ) : ℝ) =
      ((dst.1 : ℝ) - px) + (px - ((jsRound px : ℤ) : ℝ)) := by ring
  have hsplit2 : (dst.2 : ℝ) - ((jsRound py : ℤ) : ℝ) =
      ((dst.2 : ℝ) - py) + (py - ((jsRound py : ℤ) : ℝ)) := by ring
  have hstep1 : euclid ((dst.1 : ℝ) - ((jsRound px : ℤ) : ℝ))
      ((dst.2 : ℝ) - ((jsRound py : ℤ) : ℝ)) ≤
      (D - speed) + Real.sqrt (1 / 2) := by
    rw [hsplit1, hsplit2]
    refine le_trans (euclid_triangle _ _ _ _) ?_
    rw [hfirst]
    exact add_le_add_left hsecond _
  have hfin : (D - speed) + Real.sqrt (1 / 2) < D := by
    have := sqrt_half_lt_one
    linarith
  exact lt_of_le_of_lt hstep1 hfin

/-- Concrete evaluation: from (0,0) toward (5,0) at speed 2/5 the mover
returns the step (0,0) — rounding cancels the whole advance. -/
lemma straight_eval_small :
    straightNextTile ((0 : Int), (0 : Int)) ((5 : Int), (0 : Int)) (2 / 5) =
      some (0, 0) := by
  have hc1 : ((5 : Int) : ℝ) - ((0 : Int) : ℝ) = 5 := by norm_num
  have hc2 : ((0 : Int) : ℝ) - ((0 : Int) : ℝ) = 0 := by norm_num
  have he : euclid (((5 : Int) : ℝ) - ((0 : Int) : ℝ))
      (((0 : Int) : ℝ) - ((0 : Int) : ℝ)) = 5 := by
    rw [hc1, hc2, euclid_x0]
    norm_num
  unfold straightNextTile
  dsimp only
  rw [he, if_neg (by norm_num : ¬ (5 : ℝ) ≤ 2 / 5)]
  have hnx : jsRound (((0 : Int) : ℝ) +
      (((5 : Int) : ℝ) - ((0 : Int) : ℝ)) / 5 * (2 / 5)) = 0 := by
    rw [show ((0 : Int) : ℝ) + (((5 : Int) : ℝ) - ((0 : Int) : ℝ)) / 5 * (2 / 5) =
      2 / 5 by norm_num]
    unfold jsRound
    rw [Int.floor_eq_iff] <;> norm_num
  have hny : jsRound (((0 : Int) : ℝ) +
      (((0 : Int) : ℝ) - ((0 : Int) : ℝ)) / 5 * (2 / 5)) = 0 := by
    rw [show ((0 : Int) : ℝ) + (((0 : Int) : ℝ) - ((0 : Int) : ℝ)) / 5 * (2 / 5) =
      0 by norm_num]
    unfold jsRound
    rw [Int.floor_eq_iff] <;> norm_num
  rw [hnx, hny]
  rw [if_neg (show ¬ euclid (((5 : Int) : ℝ) - ((0 : Int) : ℝ))
      (((0 : Int) : ℝ) - ((0 : Int) : ℝ)) ≤ 2 / 5 by rw [he]; norm_num)]

/-- C4 counterexample: at speed 2/5 < 5 = distance, the mover from
(0,0) toward (5,0) returns the step tile (0,0) — its own position — so
the remaining distance (5) does not decrease at all. -/
theorem C4_counterexample :
    (2 / 5 : ℝ) < euclid (((5 : Int) : ℝ) - ((0 : Int) : ℝ))
      (((0 : Int) : ℝ) - ((0 : Int) : ℝ)) ∧
    straightNextTile ((0 : Int), (0 : Int)) ((5 : Int), (0 : Int)) (2 / 5) =
      some (0, 0) ∧
    ¬ euclid (((5 : Int) : ℝ) - ((0 : Int) : ℝ))
        (((0 : Int) : ℝ) - ((0 : Int) : ℝ)) <
      euclid (((5 : Int) : ℝ) - ((0 : Int) : ℝ))
        (((0 : Int) : ℝ) - ((0 : Int) : ℝ)) := by
  refine ⟨?_, straight_eval_small, lt_irrefl _⟩
  rw [show ((5 : Int) : ℝ) - ((0 : Int) : ℝ) = 5 by norm_num,
    show ((0 : Int) : ℝ) - ((0 : Int) : ℝ) = 0 by norm_num, euclid_x0]
  norm_num

/-- Concrete evaluation for the C4 witness: from (0,0) toward (10,0) at
speed 2 the mover steps to (2,0). -/
lemma straight_eval_two :
    straightNextTile ((0 : Int), (0 : Int)) ((10 : Int), (0 : Int)) 2 =
      some (2, 0) := by
  have he : euclid (((10 : Int) : ℝ) - ((0 : Int) : ℝ))
      (((0 : Int) : ℝ) - ((0 : Int) : ℝ)) = 10 := by
    rw [show ((10 : Int) : ℝ) - ((0 : Int) : ℝ) = 10 by norm_num,
      show ((0 : Int) : ℝ) - ((0 : Int) : ℝ) = 0 by norm_num, euclid_x0]
    norm_num
  unfold straightNextTile
  dsimp only
  rw [he, if_neg (by norm_num : ¬ (10 : ℝ) ≤ 2)]
  have hnx : jsRound (((0 : Int) : ℝ) +
      (((10 : Int) : ℝ) - ((0 : Int) : ℝ)) / 10 * 2) = 2 := by
    rw [show ((0 : Int) : ℝ) + (((10 : Int) : ℝ) - ((0 : Int) : ℝ)) / 10 * 2 =
      2 by norm_num]
    unfold jsRound
    rw [Int.floor_eq_iff] <;> norm_num
  have hny : jsRound (((0 : Int) : ℝ) +
      (((0 : Int) : ℝ) - ((0 : Int) : ℝ)) / 10 * 2) = 0 := by
    rw [show ((0 : Int) : ℝ) + (((0 : Int) : ℝ) - ((0 : Int) : ℝ)) / 10 * 2 =
      0 by norm_num]
    unfold jsRound
    rw [Int.floor_eq_iff] <;> norm_num
  rw [hnx, hny]
  rw [if_neg (show ¬ euclid (((10 : Int) : ℝ) - ((2 : Int) : ℝ))
      (((0 : Int) : ℝ) - ((0 : Int) : ℝ)) ≤ 2 by
    rw [show ((10 : Int) : ℝ) - ((2 : Int) : ℝ) = 8 by norm_num,
      show ((0 : Int) : ℝ) - ((0 : Int) : ℝ) = 0 by norm_num, euclid_x0]
    norm_num)]

/-- Witness for C4's amended theorem: speed 2 ≥ 1, distance 10, step to
(2,0), and the remaining distance drops from 10 to 8. -/
theorem C4_witness :
    (1 : ℝ) ≤ 2 ∧
    (2 : ℝ) < euclid (((10 : Int) : ℝ) - ((0 : Int) : ℝ))
      (((0 : Int) : ℝ) - ((0 : Int) : ℝ)) ∧
    straightNextTile ((0 : Int), (0 : Int)) ((10 : Int), (0 : Int)) 2 =
      some (2, 0) ∧
    euclid (((10 : Int) : ℝ) - ((2 : Int) : ℝ))
        (((0 : Int) : ℝ) - ((0 : Int) : ℝ)) <
      euclid (((10 : Int) : ℝ) - ((0 : Int) : ℝ))
        (((0 : Int) : ℝ) - ((0 : Int) : ℝ)) := by
  have hlt : (2 : ℝ) < euclid (((10 : Int) : ℝ) - ((0 : Int) : ℝ))
      (((0 : Int) : ℝ) - ((0 : Int) : ℝ)) := by
    rw [show ((10 : Int) : ℝ) - ((0 : Int) : ℝ) = 10 by norm_num,
      show ((0 : Int) : ℝ) - ((0 : Int) : ℝ) = 0 by norm_num, euclid_x0]
    norm_num
  exact ⟨by norm_num, hlt, straight_eval_two,
    C4_amended_strict_progress ((0 : Int), (0 : Int)) ((10 : Int), (0 : Int)) 2
      (by norm_num) hlt (2, 0) straight_eval_two⟩
